import Mathlib

/-!
Shallow embedding of the help-desk ticket service (src/server.js together
with the store adapter src/db.js).  The store holds one JSON array of
tickets under a single key; every handler loads the whole array, mutates
it in memory and writes the whole array back.  Each handler is embedded as
a pure function from the stored collection (plus the request data and, for
POST, the clock readings) to a `HandlerResult` holding the HTTP status
code, the response body and the collection as stored after the call.
`created_at` is an ISO-8601 string in the JavaScript code and is used only
through `new Date(...)`, i.e. through the timestamp it denotes; it is
modelled as a natural-number timestamp.
-/

namespace HelpDesk

/-- A ticket record as built by the POST handler in src/server.js. -/
structure Ticket where
  id : Nat
  title : String
  description : String
  type : String
  area : String
  status : String
  created_at : Nat
deriving DecidableEq

/-- Body of POST /api/tickets: `const { title, description, type, area } = req.body`.
A field absent from the JSON body (JavaScript `undefined`) is `none`. -/
structure CreateBody where
  title : Option String
  description : Option String
  type : Option String
  area : Option String
deriving DecidableEq

/-- Body of PUT /api/tickets/:id:
`const { title, description, type, area, status } = req.body`. -/
structure UpdateBody where
  title : Option String
  description : Option String
  type : Option String
  area : Option String
  status : Option String
deriving DecidableEq

/-- The JSON payloads the four handlers answer with. -/
inductive RespBody where
  | tickets (ts : List Ticket)
  | ticket (t : Ticket)
  | message (s : String)
  | error (s : String)
deriving DecidableEq

/-- Outcome of one handler call: HTTP status code, response body, and the
collection as stored under the redis key after the call. -/
structure HandlerResult where
  status : Nat
  body : RespBody
  store : List Ticket
deriving DecidableEq

/-- JavaScript truthiness test `!x` for an optional string: absent and the
empty string are falsy. -/
def falsy : Option String → Bool
  | none => true
  | some s => s == ""

/-- Value of the JavaScript expression `v || d` for an optional string `v`:
the supplied string unless it is absent or empty. -/
def orDefault (v : Option String) (d : String) : String :=
  if falsy v then d else v.getD d

/-- `const validStatuses = ['open', 'in-progress', 'closed']` from the PUT
handler. -/
def validStatuses : List String := ["open", "in-progress", "closed"]

/-- The comparator of `tickets.sort((a, b) => new Date(b.created_at) - new Date(a.created_at))`
orders by `created_at` descending; the embedding sorts with a stable sort
(ECMAScript sort is stable) on that key. -/
def sortByCreatedDesc (ts : List Ticket) : List Ticket :=
  ts.insertionSort (fun a b => b.created_at ≤ a.created_at)

/-- GET /api/tickets: load all tickets, sort by `created_at` descending,
return them; nothing is written back. -/
def listTickets (ts : List Ticket) : HandlerResult :=
  { status := 200, body := .tickets (sortByCreatedDesc ts), store := ts }

/-- The record the POST handler builds: `id: Date.now()`, supplied fields
with `||` defaults, `status: 'open'`, `created_at: new Date().toISOString()`.
`now` is the `Date.now()` reading and `createdAt` the timestamp of the
`new Date()` reading. -/
def newTicket (now createdAt : Nat) (b : CreateBody) : Ticket :=
  { id := now
    title := b.title.getD ""
    description := orDefault b.description ""
    type := orDefault b.type "General Inquiry"
    area := orDefault b.area "IT Support"
    status := "open"
    created_at := createdAt }

/-- POST /api/tickets: reject a falsy title with 400 before touching the
store; otherwise append the new record and persist. -/
def createTicket (now createdAt : Nat) (b : CreateBody) (ts : List Ticket) :
    HandlerResult :=
  if falsy b.title then
    { status := 400, body := .error "Title is required", store := ts }
  else
    let t := newTicket now createdAt b
    { status := 201, body := .ticket t, store := ts ++ [t] }

/-- The field-by-field partial update of the PUT handler: each field is
overwritten exactly when it is present in the body (`!== undefined`);
`status` additionally only when it is one of `validStatuses`. -/
def applyUpdate (b : UpdateBody) (t : Ticket) : Ticket :=
  { t with
    title := b.title.getD t.title
    description := b.description.getD t.description
    type := b.type.getD t.type
    area := b.area.getD t.area
    status :=
      match b.status with
      | some v => if validStatuses.contains v then v else t.status
      | none => t.status }

/-- PUT /api/tickets/:id: find the ticket by id (`findIndex` returning -1
is modelled by `findIdx` returning the length); 404 without a write when
absent, otherwise update in place, persist and return the updated record. -/
def updateTicket (id : Nat) (b : UpdateBody) (ts : List Ticket) :
    HandlerResult :=
  let j := ts.findIdx (fun t => t.id == id)
  if h : j < ts.length then
    let u := applyUpdate b (ts.get ⟨j, h⟩)
    { status := 200, body := .ticket u, store := ts.set j u }
  else
    { status := 404, body := .error "Ticket not found", store := ts }

/-- DELETE /api/tickets/:id: 404 without a write when the id is absent,
otherwise keep every ticket whose id differs and persist. -/
def deleteTicket (id : Nat) (ts : List Ticket) : HandlerResult :=
  if ts.findIdx (fun t => t.id == id) < ts.length then
    { status := 200, body := .message "Ticket deleted successfully",
      store := ts.filter (fun t => t.id != id) }
  else
    { status := 404, body := .error "Ticket not found", store := ts }

/-- A concrete ticket for evaluating the theorems on explicit inputs. -/
def tHub : Ticket :=
  { id := 1, title := "Printer jam", description := "Floor 2 printer",
    type := "Hardware", area := "IT Support", status := "open", created_at := 50 }

/-- Concrete ticket with the earliest creation time of the three below. -/
def tA : Ticket := { tHub with id := 2, title := "VPN drops", created_at := 10 }

/-- Concrete ticket with the middle creation time. -/
def tB : Ticket := { tHub with id := 3, title := "Password reset", created_at := 20 }

/-- Concrete ticket with the latest creation time. -/
def tC : Ticket := { tHub with id := 4, title := "New laptop", created_at := 30 }

theorem orDefault_ne_empty (v : Option String) (d : String) (hd : d ≠ "") :
    orDefault v d ≠ "" := by
  cases v with
  | none => simpa [orDefault, falsy] using hd
  | some s =>
    by_cases hs : s = ""
    · simpa [orDefault, falsy, hs] using hd
    · simp [orDefault, falsy, hs]

/-- C1: a PUT on an existing id whose body supplies only `status = "closed"`
answers 200 with the updated record, and the stored collection differs from
the old one exactly at the found position, where only the `status` field of
that ticket changed. -/
theorem put_only_status_closed (ts : List Ticket) (id : Nat)
    (h : ts.findIdx (fun t => t.id == id) < ts.length) :
    updateTicket id ⟨none, none, none, none, some "closed"⟩ ts =
      { status := 200,
        body := .ticket
          { ts.get ⟨ts.findIdx (fun t => t.id == id), h⟩ with status := "closed" },
        store := ts.set (ts.findIdx (fun t => t.id == id))
          { ts.get ⟨ts.findIdx (fun t => t.id == id), h⟩ with status := "closed" } } := by
  unfold updateTicket
  rw [dif_pos h]
  simp [applyUpdate, validStatuses]

theorem put_only_status_closed_witness :
    ([tHub].findIdx (fun t => t.id == 1) < [tHub].length) ∧
    updateTicket 1 ⟨none, none, none, none, some "closed"⟩ [tHub] =
      { status := 200, body := .ticket { tHub with status := "closed" },
        store := [{ tHub with status := "closed" }] } :=
  ⟨by decide, (put_only_status_closed [tHub] 1 (by decide)).trans (by decide)⟩

/-- C2: a POST with a non-falsy title answers 201 with the built record,
appends it to the collection and persists the whole collection; the record
carries the supplied title, the supplied or defaulted description, type and
area, status `"open"`, the assigned id and the creation timestamp. -/
theorem post_valid_title (ts : List Ticket) (b : CreateBody) (now createdAt : Nat)
    (h : falsy b.title = false) :
    createTicket now createdAt b ts =
      { status := 201, body := .ticket (newTicket now createdAt b),
        store := ts ++ [newTicket now createdAt b] } ∧
    b.title = some (newTicket now createdAt b).title ∧
    (b.description = none → (newTicket now createdAt b).description = "") ∧
    (∀ s, b.description = some s → (newTicket now createdAt b).description = s) ∧
    (b.type = none → (newTicket now createdAt b).type = "General Inquiry") ∧
    (∀ s, b.type = some s → s ≠ "" → (newTicket now createdAt b).type = s) ∧
    (b.area = none → (newTicket now createdAt b).area = "IT Support") ∧
    (∀ s, b.area = some s → s ≠ "" → (newTicket now createdAt b).area = s) ∧
    (newTicket now createdAt b).status = "open" ∧
    (newTicket now createdAt b).id = now ∧
    (newTicket now createdAt b).created_at = createdAt := by
  refine ⟨by simp [createTicket, h], ?_, ?_, ?_, ?_, ?_, ?_, ?_, rfl, rfl, rfl⟩
  · cases hb : b.title with
    | none => rw [hb] at h; simp [falsy] at h
    | some s => simp [newTicket, hb]
  · intro hb; simp [newTicket, hb, orDefault, falsy]
  · intro s hb
    by_cases hs : s = "" <;> simp [newTicket, hb, orDefault, falsy, hs]
  · intro hb; simp [newTicket, hb, orDefault, falsy]
  · intro s hb hs; simp [newTicket, hb, orDefault, falsy, hs]
  · intro hb; simp [newTicket, hb, orDefault, falsy]
  · intro s hb hs; simp [newTicket, hb, orDefault, falsy, hs]

theorem post_valid_title_witness :
    falsy (CreateBody.mk (some "VPN down") none (some "Network") none).title = false ∧
    createTicket 7 8 ⟨some "VPN down", none, some "Network", none⟩ [] =
      { status := 201,
        body := .ticket (newTicket 7 8 ⟨some "VPN down", none, some "Network", none⟩),
        store := [newTicket 7 8 ⟨some "VPN down", none, some "Network", none⟩] } :=
  ⟨by decide, by
    simpa using
      (post_valid_title [] ⟨some "VPN down", none, some "Network", none⟩ 7 8 (by decide)).1⟩

/-- C5: a POST whose title is absent or empty answers 400 with the
validation error and the stored collection is untouched. -/
theorem post_missing_title_400 (ts : List Ticket) (b : CreateBody)
    (now createdAt : Nat) (h : b.title = none ∨ b.title = some "") :
    createTicket now createdAt b ts =
      { status := 400, body := .error "Title is required", store := ts } := by
  have hf : falsy b.title = true := by
    rcases h with h | h <;> simp [falsy, h]
  simp [createTicket, hf]

theorem post_missing_title_400_witness :
    ((CreateBody.mk (some "") (some "desc") none none).title = none ∨
      (CreateBody.mk (some "") (some "desc") none none).title = some "") ∧
    createTicket 7 8 ⟨some "", some "desc", none, none⟩ [tHub] =
      { status := 400, body := .error "Title is required", store := [tHub] } :=
  ⟨Or.inr rfl,
    post_missing_title_400 [tHub] ⟨some "", some "desc", none, none⟩ 7 8 (Or.inr rfl)⟩

/-- C3: a PUT on an existing id whose body carries a status outside
`validStatuses` is not rejected: it answers 200 with the updated record and
persists it, and the status of the affected ticket is the one it had
before. -/
theorem put_invalid_status_ignored (ts : List Ticket) (id : Nat)
    (b : UpdateBody) (v : String)
    (hj : ts.findIdx (fun t => t.id == id) < ts.length)
    (hs : b.status = some v) (hv : validStatuses.contains v = false) :
    updateTicket id b ts =
      { status := 200,
        body := .ticket
          (applyUpdate b (ts.get ⟨ts.findIdx (fun t => t.id == id), hj⟩)),
        store := ts.set (ts.findIdx (fun t => t.id == id))
          (applyUpdate b (ts.get ⟨ts.findIdx (fun t => t.id == id), hj⟩)) } ∧
    (applyUpdate b (ts.get ⟨ts.findIdx (fun t => t.id == id), hj⟩)).status =
      (ts.get ⟨ts.findIdx (fun t => t.id == id), hj⟩).status := by
  constructor
  · unfold updateTicket
    rw [dif_pos hj]
  · have hv2 : v ∉ validStatuses := by simpa using hv
    simp [applyUpdate, hs, hv2]

theorem put_invalid_status_ignored_witness :
    ([tHub].findIdx (fun t => t.id == 1) < [tHub].length) ∧
    (UpdateBody.mk none none none none (some "archived")).status = some "archived" ∧
    validStatuses.contains "archived" = false ∧
    updateTicket 1 ⟨none, none, none, none, some "archived"⟩ [tHub] =
      { status := 200, body := .ticket tHub, store := [tHub] } ∧
    tHub.status = tHub.status := by
  refine ⟨by decide, rfl, by decide, ?_⟩
  have h := put_invalid_status_ignored [tHub] 1
    ⟨none, none, none, none, some "archived"⟩ "archived" (by decide) rfl (by decide)
  exact ⟨h.1.trans (by decide), rfl⟩

/-- C4: a PUT and a DELETE on an id that matches no ticket both answer 404
with the not-found error and leave the stored collection exactly as it
was (no write happens). -/
theorem missing_id_404 (ts : List Ticket) (id : Nat) (b : UpdateBody)
    (h : ∀ t ∈ ts, t.id ≠ id) :
    updateTicket id b ts =
      { status := 404, body := .error "Ticket not found", store := ts } ∧
    deleteTicket id ts =
      { status := 404, body := .error "Ticket not found", store := ts } := by
  have hidx : ts.findIdx (fun t => t.id == id) = ts.length :=
    List.findIdx_eq_length.mpr (fun t ht => by simpa using h t ht)
  constructor
  · unfold updateTicket
    rw [dif_neg (by rw [hidx]; exact lt_irrefl _)]
  · unfold deleteTicket
    rw [if_neg (by rw [hidx]; exact lt_irrefl _)]

theorem missing_id_404_witness :
    (∀ t ∈ [tHub], t.id ≠ 9) ∧
    updateTicket 9 ⟨some "x", none, none, none, none⟩ [tHub] =
      { status := 404, body := .error "Ticket not found", store := [tHub] } ∧
    deleteTicket 9 [tHub] =
      { status := 404, body := .error "Ticket not found", store := [tHub] } :=
  ⟨by decide, missing_id_404 [tHub] 9 ⟨some "x", none, none, none, none⟩ (by decide)⟩

/-- C6: GET answers 200 with every stored ticket (a permutation of the
collection, nothing filtered out) sorted by `created_at` descending; on
three tickets with strictly increasing creation times the answer lists
them newest first. -/
theorem list_returns_all_sorted (ts : List Ticket) (a b c : Ticket)
    (h1 : a.created_at < b.created_at) (h2 : b.created_at < c.created_at) :
    (listTickets ts).status = 200 ∧
    (listTickets ts).body = .tickets (sortByCreatedDesc ts) ∧
    (sortByCreatedDesc ts).Perm ts ∧
    (sortByCreatedDesc ts).Pairwise (fun x y => y.created_at ≤ x.created_at) ∧
    listTickets [a, b, c] =
      { status := 200, body := .tickets [c, b, a], store := [a, b, c] } := by
  refine ⟨rfl, rfl, List.perm_insertionSort _ ts, ?_, ?_⟩
  · haveI : IsTotal Ticket (fun x y => y.created_at ≤ x.created_at) :=
      ⟨fun x y => by omega⟩
    haveI : IsTrans Ticket (fun x y => y.created_at ≤ x.created_at) :=
      ⟨fun x y z hxy hyz => by omega⟩
    exact List.sorted_insertionSort _ ts
  · have hba : ¬ (b.created_at ≤ a.created_at) := by omega
    have hca : ¬ (c.created_at ≤ a.created_at) := by omega
    have hcb : ¬ (c.created_at ≤ b.created_at) := by omega
    simp [listTickets, sortByCreatedDesc, List.insertionSort, List.orderedInsert,
      hba, hca, hcb]

theorem list_returns_all_sorted_witness :
    tA.created_at < tB.created_at ∧ tB.created_at < tC.created_at ∧
    (listTickets [tA, tB, tC]).status = 200 ∧
    (sortByCreatedDesc [tA, tB, tC]).Perm [tA, tB, tC] ∧
    listTickets [tA, tB, tC] =
      { status := 200, body := .tickets [tC, tB, tA], store := [tA, tB, tC] } := by
  have h := list_returns_all_sorted [tA, tB, tC] tA tB tC (by decide) (by decide)
  exact ⟨by decide, by decide, h.1, h.2.2.1, h.2.2.2.2⟩

/-- C7 fails as stated: the PUT handler overwrites `title` whenever the
field is present in the body, with no emptiness check, so a body carrying
`title = ""` empties the title of a stored ticket. -/
theorem put_empty_title_breaks_invariant :
    (∀ t ∈ [tHub], t.title ≠ "") ∧
    ∃ t ∈ (updateTicket 1 ⟨some "", none, none, none, none⟩ [tHub]).store,
      t.title = "" := by
  decide

/-- C7 amended: on a collection whose titles are all non-empty, Create and
Delete preserve the invariant unconditionally, and Update preserves it for
every body that does not carry an empty-string title. -/
theorem title_invariant_amended (ts : List Ticket)
    (hinv : ∀ t ∈ ts, t.title ≠ "") :
    (∀ (b : CreateBody) (now createdAt : Nat),
      ∀ t ∈ (createTicket now createdAt b ts).store, t.title ≠ "") ∧
    (∀ (id : Nat) (b : UpdateBody), b.title ≠ some "" →
      ∀ t ∈ (updateTicket id b ts).store, t.title ≠ "") ∧
    (∀ id : Nat, ∀ t ∈ (deleteTicket id ts).store, t.title ≠ "") := by
  refine ⟨?_, ?_, ?_⟩
  · intro b now createdAt t ht
    by_cases hf : falsy b.title
    · simp [createTicket, hf] at ht
      exact hinv t ht
    · simp [createTicket, hf] at ht
      rcases ht with ht | ht
      · exact hinv t ht
      · subst ht
        cases hb : b.title with
        | none => rw [hb] at hf; simp [falsy] at hf
        | some s =>
          rw [hb] at hf
          simp [falsy] at hf
          simpa [newTicket, hb] using hf
  · intro id b hb t ht
    by_cases hj : ts.findIdx (fun u => u.id == id) < ts.length
    · unfold updateTicket at ht
      rw [dif_pos hj] at ht
      simp only at ht
      rcases List.mem_or_eq_of_mem_set ht with hmem | heq
      · exact hinv t hmem
      · subst heq
        cases hbt : b.title with
        | none =>
          simpa [applyUpdate, hbt] using hinv _ (List.get_mem ts _ _)
        | some v =>
          have hv : v ≠ "" := fun hc => hb (by rw [hbt, hc])
          simpa [applyUpdate, hbt] using hv
    · unfold updateTicket at ht
      rw [dif_neg hj] at ht
      exact hinv t ht
  · intro id t ht
    unfold deleteTicket at ht
    split at ht
    · simp only at ht
      exact hinv t (List.mem_of_mem_filter ht)
    · exact hinv t ht

theorem title_invariant_amended_witness :
    (∀ t ∈ [tHub], t.title ≠ "") ∧
    ({ tHub with description := "resolved" } : Ticket).title ≠ "" := by
  refine ⟨by decide, ?_⟩
  have h := (title_invariant_amended [tHub] (by decide)).2.1 1
    ⟨none, some "resolved", none, none, none⟩ (by simp)
  exact h { tHub with description := "resolved" } (by decide)

/-- C8: under the single-writer clock assumption (every stored id was
assigned at a strictly earlier millisecond than the current `Date.now()`
reading), the id a POST assigns differs from every stored id, and a
collection with pairwise-distinct ids still has pairwise-distinct ids
after the POST. -/
theorem create_id_unique (ts : List Ticket) (b : CreateBody)
    (now createdAt : Nat)
    (hmono : ∀ t ∈ ts, t.id < now)
    (hdist : ts.Pairwise (fun x y => x.id ≠ y.id)) :
    (∀ t ∈ ts, t.id ≠ now) ∧
    (createTicket now createdAt b ts).store.Pairwise
      (fun x y => x.id ≠ y.id) := by
  refine ⟨fun t ht => Nat.ne_of_lt (hmono t ht), ?_⟩
  by_cases hf : falsy b.title
  · simpa [createTicket, hf] using hdist
  · simp only [createTicket, hf, Bool.false_eq_true, if_false]
    rw [List.pairwise_append]
    refine ⟨hdist, List.pairwise_singleton _ _, ?_⟩
    intro x hx y hy
    simp only [List.mem_singleton] at hy
    subst hy
    simpa [newTicket] using Nat.ne_of_lt (hmono x hx)

theorem create_id_unique_witness :
    (∀ t ∈ [tA, tB], t.id < 99) ∧
    ([tA, tB].Pairwise (fun x y => x.id ≠ y.id)) ∧
    (∀ t ∈ [tA, tB], t.id ≠ 99) ∧
    (createTicket 99 99 ⟨some "Mouse broken", none, none, none⟩ [tA, tB]).store.Pairwise
      (fun x y => x.id ≠ y.id) := by
  have h := create_id_unique [tA, tB] ⟨some "Mouse broken", none, none, none⟩ 99 99
    (by decide) (by decide)
  exact ⟨by decide, by decide, h.1, h.2⟩

theorem length_filter_ne_id (ts : List Ticket) (id : Nat)
    (hdist : ts.Pairwise (fun x y => x.id ≠ y.id))
    (hmem : ∃ t ∈ ts, t.id = id) :
    (ts.filter (fun t => t.id != id)).length + 1 = ts.length := by
  induction ts with
  | nil => simp at hmem
  | cons hd tl ih =>
    rw [List.pairwise_cons] at hdist
    by_cases hh : hd.id = id
    · have hall : ∀ u ∈ tl, (u.id != id) = true := by
        intro u hu
        have hne := hdist.1 u hu
        simp only [bne_iff_ne, ne_eq]
        omega
      simp [List.filter_cons, hh, List.filter_eq_self.mpr hall]
    · obtain ⟨t, htl, htid⟩ := hmem
      rcases List.mem_cons.mp htl with rfl | htl2
      · exact absurd htid hh
      · have hrec := ih hdist.2 ⟨t, htl2, htid⟩
        simp only [List.filter_cons, bne_iff_ne, ne_eq, hh, not_false_eq_true,
          if_true, List.length_cons]
        omega

/-- C9: a DELETE on an id present in a collection with pairwise-distinct
ids answers 200, the persisted collection holds no ticket with that id and
is exactly one shorter, and a subsequent List (sorted output) does not show
the id either. -/
theorem delete_removes_exactly_one (ts : List Ticket) (id : Nat)
    (hdist : ts.Pairwise (fun x y => x.id ≠ y.id))
    (hmem : ∃ t ∈ ts, t.id = id) :
    deleteTicket id ts =
      { status := 200, body := .message "Ticket deleted successfully",
        store := ts.filter (fun t => t.id != id) } ∧
    (∀ t ∈ (deleteTicket id ts).store, t.id ≠ id) ∧
    (deleteTicket id ts).store.length + 1 = ts.length ∧
    (∀ t ∈ sortByCreatedDesc (deleteTicket id ts).store, t.id ≠ id) := by
  have hidx : ts.findIdx (fun t => t.id == id) < ts.length := by
    rw [List.findIdx_lt_length]
    obtain ⟨t, ht, he⟩ := hmem
    exact ⟨t, ht, by simpa using he⟩
  have heq : deleteTicket id ts =
      { status := 200, body := .message "Ticket deleted successfully",
        store := ts.filter (fun t => t.id != id) } := by
    unfold deleteTicket
    rw [if_pos hidx]
  have hnomem : ∀ t ∈ (deleteTicket id ts).store, t.id ≠ id := by
    rw [heq]
    intro t ht
    simpa using List.of_mem_filter ht
  refine ⟨heq, hnomem, ?_, ?_⟩
  · rw [heq]
    exact length_filter_ne_id ts id hdist hmem
  · intro t ht
    exact hnomem t (((List.perm_insertionSort _ _).mem_iff).mp ht)

theorem delete_removes_exactly_one_witness :
    ([tA, tB].Pairwise (fun x y => x.id ≠ y.id)) ∧
    (∃ t ∈ [tA, tB], t.id = 2) ∧
    deleteTicket 2 [tA, tB] =
      { status := 200, body := .message "Ticket deleted successfully",
        store := [tB] } ∧
    (deleteTicket 2 [tA, tB]).store.length + 1 = 2 := by
  have h := delete_removes_exactly_one [tA, tB] 2 (by decide) (by decide)
  exact ⟨by decide, by decide, h.1.trans (by decide), h.2.2.1⟩

/-- C10: supplying `type` or `area` as the empty string is indistinguishable
from omitting the field (the `||` default applies), and no created record
carries an empty `type` or `area`. -/
theorem post_empty_type_area_defaults (ts : List Ticket) (b : CreateBody)
    (now createdAt : Nat) :
    createTicket now createdAt { b with type := some "" } ts =
      createTicket now createdAt { b with type := none } ts ∧
    createTicket now createdAt { b with area := some "" } ts =
      createTicket now createdAt { b with area := none } ts ∧
    ∀ t : Ticket, (createTicket now createdAt b ts).body = .ticket t →
      t.type ≠ "" ∧ t.area ≠ "" := by
  refine ⟨?_, ?_, ?_⟩
  · have hnt : newTicket now createdAt { b with type := some "" } =
        newTicket now createdAt { b with type := none } := by
      simp [newTicket, orDefault, falsy]
    simp [createTicket, hnt]
  · have hnt : newTicket now createdAt { b with area := some "" } =
        newTicket now createdAt { b with area := none } := by
      simp [newTicket, orDefault, falsy]
    simp [createTicket, hnt]
  · intro t ht
    by_cases hf : falsy b.title
    · simp [createTicket, hf] at ht
    · simp [createTicket, hf] at ht
      rw [← ht]
      exact ⟨orDefault_ne_empty _ _ (by decide), orDefault_ne_empty _ _ (by decide)⟩

theorem post_empty_type_area_defaults_witness :
    createTicket 5 6 ⟨some "Screen flicker", none, some "", some ""⟩ [] =
      createTicket 5 6 ⟨some "Screen flicker", none, none, some ""⟩ [] ∧
    (newTicket 5 6 ⟨some "Screen flicker", none, some "", some ""⟩).type ≠ "" ∧
    (newTicket 5 6 ⟨some "Screen flicker", none, some "", some ""⟩).area ≠ "" := by
  have h1 := post_empty_type_area_defaults []
    ⟨some "Screen flicker", none, none, some ""⟩ 5 6
  have h2 := post_empty_type_area_defaults []
    ⟨some "Screen flicker", none, some "", some ""⟩ 5 6
  exact ⟨h1.1, h2.2.2 _ (by decide)⟩

end HelpDesk
